import Mathlib

/-!
# Verification of the VerifAI backend (src/backend) against its specification

Shallow embedding of the two-phase verification-session protocol implemented in
`src/backend/main.py` (endpoints `initiate_session` and `upload_video`), together
with the observable behaviour of its collaborators `ai_engine.analyze_video` and
`report_generator.generate_pdf`.

Modelling conventions:
* The Supabase `inspections` table is a list of rows; a row is an association
  list of column name to JSON-like value (`PyVal`).  `selectEq`, `updateEq` and
  list append model `.select().eq()`, `.update().eq()` and `.insert()`.
* Python floats presented by the client are modelled as rationals (`ℚ`), cast
  to `ℝ` for the trigonometric geofence computation (`calculate_distance`).
* External I/O (object storage, the DB connection, the Gemini call, the PDF
  library) is modelled by oracle records (`InitWorld`, `World`) that fix, for
  one request, whether each external call succeeds and what it returns.
  Exceptions propagate as `Except`/error values; the state of the store is
  threaded explicitly so that partial mutation before a failure is visible.
* `random.randint` is modelled by `randint` applied to an arbitrary seed, and
  Python `str` on a natural number by `pyStr`.
-/

set_option maxHeartbeats 1000000

/-- JSON-like Python values (the payloads stored in table cells, the parsed AI
verdicts, and the values handed to `json.loads`). `PyVal.none` is Python `None`
(JSON `null`). -/
inductive PyVal where
  | none
  | bool (b : Bool)
  | int (n : Int)
  | rat (q : ℚ)
  | str (s : String)
  | list (xs : List PyVal)
  | dict (fields : List (String × PyVal))

/-- A database row: association list from column names to values. -/
abbrev Row := List (String × PyVal)

/-- The `inspections` table. -/
abbrev Store := List Row

/-- Python `dict` lookup (`row[k]` when present): first binding of `k` wins. -/
def dictLookup (r : Row) (k : String) : Option PyVal :=
  match r with
  | [] => Option.none
  | p :: rest => if p.1 == k then some p.2 else dictLookup rest k

/-- Python `dict.get k default`: the bound value when the key is present
(even when that value is `None`), otherwise the default. -/
def dictGet (r : Row) (k : String) (default : PyVal) : PyVal :=
  (dictLookup r k).getD default

/-- Setting one column of a row (`row[k] = v`). -/
def dictSet (r : Row) (k : String) (v : PyVal) : Row :=
  match r with
  | [] => [(k, v)]
  | p :: rest => if p.1 == k then (k, v) :: rest else p :: dictSet rest k v

/-- Setting several columns in order (a Supabase partial `update` payload). -/
def setFields (r : Row) : List (String × PyVal) → Row
  | [] => r
  | kv :: rest => setFields (dictSet r kv.1 kv.2) rest

/-- SQL text-column equality used by `.eq(k, v)`: the cell holds the string `v`. -/
def rowMatches (r : Row) (k v : String) : Bool :=
  match dictLookup r k with
  | some (.str s) => s == v
  | _ => false

/-- `supabase.table(..).select("*").eq(k, v).execute().data`. -/
def selectEq (st : Store) (k v : String) : List Row :=
  match st with
  | [] => []
  | r :: rest => if rowMatches r k v then r :: selectEq rest k v else selectEq rest k v

/-- `supabase.table(..).update(fields).eq(k, v).execute()`: every matching row
gets the fields set; non-matching rows (and the rest of the store) are kept. -/
def updateEq (st : Store) (fields : List (String × PyVal)) (k v : String) : Store :=
  match st with
  | [] => []
  | r :: rest =>
      (if rowMatches r k v then setFields r fields else r) :: updateEq rest fields k v

/-- Decimal digits of a natural number, most significant first (fuel-based so
that it reduces definitionally; `fuel > n` suffices). -/
def natDigitsAux : Nat → Nat → List Char
  | 0, _ => []
  | fuel + 1, n =>
      if n < 10 then [Nat.digitChar n]
      else natDigitsAux fuel (n / 10) ++ [Nat.digitChar (n % 10)]

/-- Python `str` on a nonnegative integer: its decimal digit string. -/
def pyStr (n : Nat) : String := String.mk (natDigitsAux (n + 1) n)

/-- Python `random.randint lo hi` (both endpoints inclusive), with the
randomness supplied as an arbitrary seed. -/
def randint (lo hi seed : Nat) : Nat := lo + seed % (hi - lo + 1)

/-! ## Geofence (`calculate_distance`, lines 38-49 of main.py) -/

/-- `math.radians`. -/
noncomputable def radians (x : ℝ) : ℝ := x * Real.pi / 180

section
open Classical

/-- `math.atan2 y x` (two-argument arctangent, standard C convention). -/
noncomputable def atan2 (y x : ℝ) : ℝ :=
  if 0 < x then Real.arctan (y / x)
  else if x < 0 ∧ 0 ≤ y then Real.arctan (y / x) + Real.pi
  else if x < 0 ∧ y < 0 then Real.arctan (y / x) - Real.pi
  else if x = 0 ∧ 0 < y then Real.pi / 2
  else if x = 0 ∧ y < 0 then -(Real.pi / 2)
  else 0

/-- Haversine great-circle distance, exactly as in `calculate_distance`. -/
noncomputable def calculate_distance (lat1 lon1 lat2 lon2 : ℝ) : ℝ :=
  let R : ℝ := 6371000
  let phi1 := radians lat1
  let phi2 := radians lat2
  let delta_phi := radians (lat2 - lat1)
  let delta_lambda := radians (lon2 - lon1)
  let a := Real.sin (delta_phi / 2) ^ 2 +
    Real.cos phi1 * Real.cos phi2 * Real.sin (delta_lambda / 2) ^ 2
  let c := 2 * atan2 (Real.sqrt a) (Real.sqrt (1 - a))
  R * c

/-- The reference geofence distance as worded by the spec (section 4.1): the
standard spherical law of haversines, `2 R arcsin (sqrt a)` with Earth radius
6,371,000 m.  Stated separately from `calculate_distance` (which is translated
from the source) so that the two can be compared. -/
noncomputable def haversine_spec (lat1 lon1 lat2 lon2 : ℝ) : ℝ :=
  let a := Real.sin (radians (lat2 - lat1) / 2) ^ 2 +
    Real.cos (radians lat1) * Real.cos (radians lat2) *
      Real.sin (radians (lon2 - lon1) / 2) ^ 2
  6371000 * (2 * Real.arcsin (Real.sqrt a))

/-- Module-level constants of main.py (lines 19-21). -/
def target_lat : ℚ := 19.073892

def target_long : ℚ := 72.845470

def max_distance : ℕ := 500

/-! ## `POST /initiate-session` (lines 63-109 of main.py) -/

/-- Request body of `/initiate-session`. -/
structure LocationCheck where
  lat : ℚ
  long : ℚ
  case_id : String

/-- Outcome of the DB calls made by `initiate_session`: whether each Supabase
call raises.  Any raise is caught by the handler and turned into
HTTP 500 "Database Error". -/
structure InitWorld where
  selectErr : Bool
  updateErr : Bool
  insertErr : Bool

/-- A store operation issued to Supabase (used to record the trace of reads
and writes an endpoint performs). -/
inductive StoreOp where
  | select (table k v : String)
  | update (table : String) (fields : List (String × PyVal)) (k v : String)
  | insert (table : String) (row : Row)

/-- Response of `/initiate-session`. -/
inductive InitResponse where
  | denied (reason : String)
  | ok (session_id : String) (verification_code : String)
  | dbError (code : Nat) (detail : String)

/-- Whether the response is the geofence rejection `{allowed: false, ...}`. -/
def InitResponse.isDenied : InitResponse → Bool
  | .denied _ => true
  | _ => false

/-- Payload of the `.update(...)` issued by `initiate_session` for an existing
session (main.py lines 86-91). -/
def initUpdateFields (data : LocationCheck) (otp : String) : List (String × PyVal) :=
  [("gps_lat", .rat data.lat), ("gps_long", .rat data.long),
   ("status", .str "pending"), ("verification_code", .str otp)]

/-- Row inserted by `initiate_session` for a fresh session (main.py
lines 94-100). -/
def initInsertRow (data : LocationCheck) (otp : String) : Row :=
  ("case_id", .str data.case_id) :: initUpdateFields data otp

/-- `initiate_session` (main.py lines 63-109): geofence check, OTP issuance,
then upsert of the session row.  Returns the response, the resulting store, and
the trace of store operations attempted. -/
noncomputable def initiate_session (data : LocationCheck) (seed : Nat) (w : InitWorld)
    (store : Store) : InitResponse × Store × List StoreOp :=
  if calculate_distance data.lat data.long target_lat target_long > (max_distance : ℝ) then
    (.denied "You are too far from the location!", store, [])
  else
    let otp_code := pyStr (randint 1000 9999 seed)
    if w.selectErr then
      (.dbError 500 "Database Error", store, [.select "inspections" "case_id" data.case_id])
    else
      match selectEq store "case_id" data.case_id with
      | _ :: _ =>
          if w.updateErr then
            (.dbError 500 "Database Error", store,
             [.select "inspections" "case_id" data.case_id,
              .update "inspections" (initUpdateFields data otp_code) "case_id" data.case_id])
          else
            (.ok data.case_id otp_code,
             updateEq store (initUpdateFields data otp_code) "case_id" data.case_id,
             [.select "inspections" "case_id" data.case_id,
              .update "inspections" (initUpdateFields data otp_code) "case_id" data.case_id])
      | [] =>
          if w.insertErr then
            (.dbError 500 "Database Error", store,
             [.select "inspections" "case_id" data.case_id,
              .insert "inspections" (initInsertRow data otp_code)])
          else
            (.ok data.case_id otp_code, store ++ [initInsertRow data otp_code],
             [.select "inspections" "case_id" data.case_id,
              .insert "inspections" (initInsertRow data otp_code)])

end

/-! ## `POST /upload-video/{session_id}` (lines 114-211 of main.py) -/

/-- The value returned by `ai_engine.analyze_video`: either the cleaned Gemini
response text (a string), or - on any caught internal exception - the Python
dict `{"error": ...}`.  `analyze_video` never raises (all its code is inside
`try`/`except` blocks that `return`). -/
inductive AIRet where
  | retStr (s : String)
  | retDict (d : PyVal)

/-- The raw payload carried by an `analyze_video` return value. -/
def AIRet.rawPayload : AIRet → PyVal
  | .retStr s => .str s
  | .retDict d => d

/-- Oracle for one `upload_video` request: outcome of every external call.
For fallible calls, `Option.none` means success and `some msg` means the call
raised an exception whose `str` is `msg`. -/
structure World where
  /-- `supabase.storage...upload` for the video (line 126). -/
  videoUpload : Option String
  /-- `get_public_url` for the video (line 133). -/
  publicUrl : String
  /-- The status -> processing DB update (line 137). -/
  updProcessing : Option String
  /-- The session select (line 143). -/
  select : Option String
  /-- What `analyze_video` returns (line 153). -/
  analyzeRet : AIRet
  /-- `json.loads` on a string: `some v` when it parses, `none` when it raises
  (line 157). -/
  parse : String → Option PyVal
  /-- The verdict DB update (line 162). -/
  updCompleted : Option String
  /-- `generate_pdf` (line 172): `some msg` when it raises. -/
  pdfGen : Option String
  /-- The PDF storage upload (line 177). -/
  reportUpload : Option String
  /-- `get_public_url` for the report (line 184). -/
  reportPublicUrl : String
  /-- The report_url DB update (line 187). -/
  updReport : Option String
  /-- `os.remove` cleanup (line 193). -/
  remove : Option String

/-- A Python exception value as seen by the outer `except` handler. -/
inductive PyExc where
  | httpExc (code : Nat) (detail : String)
  | exc (msg : String)

/-- Python `str(e)`; for FastAPI/Starlette `HTTPException` this is
`"{status_code}: {detail}"`. -/
def pyExcStr : PyExc → String
  | .httpExc code detail => pyStr code ++ ": " ++ detail
  | .exc msg => msg

/-- JSON body of a successful `upload_video` response (line 202). -/
structure SubmitResponse where
  status : String
  video_url : String
  ai_verdict : PyVal
  report_url : Option String

/-- `report_generator.generate_pdf`: renders the verdict to a local PDF file
and returns its name (`"report_{session_id}.pdf"`).  The rendering itself is
external to the state machine; fallibility is injected via `World.pdfGen`. -/
def generate_pdf (session_id : String) (ai_data : PyVal) : String :=
  "report_" ++ session_id ++ ".pdf"

/-- Step F of `upload_video` (lines 167-199): generate and upload the PDF
report.  Every exception inside is caught and only logged; `report_url` is the
Python local that is `None` until `get_public_url` succeeds.  Returns the
response-visible `report_url` and the resulting store. -/
def report_phase (session_id : String) (ai_data : PyVal) (w : World) (st : Store) :
    Option String × Store :=
  match w.pdfGen with
  | some _ => (Option.none, st)
  | Option.none =>
    let pdf_filename := generate_pdf session_id ai_data
    match w.reportUpload with
    | some _ => (Option.none, st)
    | Option.none =>
      let report_url := w.reportPublicUrl
      match w.updReport with
      | some _ => (some report_url, st)
      | Option.none =>
        let st' := updateEq st [("report_url", .str report_url)] "case_id" session_id
        match w.remove with
        | some _ => (some report_url, st')
        | Option.none => (some report_url, st')

/-- Payload of the status -> "processing" update (main.py lines 137-140). -/
def processingFields (public_url : String) : List (String × PyVal) :=
  [("video_url", .str public_url), ("status", .str "processing")]

/-- Payload of the verdict update (main.py lines 162-165). -/
def completedFields (ai_data : PyVal) : List (String × PyVal) :=
  [("status", .str "completed"), ("ai_result", ai_data)]

/-- The `ai_data` computed at lines 153-159: the `analyze_video` return value
passed through the guarded `json.loads` (a malformed string payload, or a dict
return on which `json.loads` raises `TypeError`, becomes `{"raw": payload}`). -/
def parsedVerdict (w : World) : PyVal :=
  match w.analyzeRet with
  | .retStr s =>
      match w.parse s with
      | some v => v
      | Option.none => .dict [("raw", .str s)]
  | .retDict d => .dict [("raw", d)]

/-- Body of the `try` block of `upload_video` (lines 119-207).  Returns the
result (response or uncaught exception), the resulting store, and the list of
`(video_url, expected_code)` arguments passed to `analyze_video`. -/
def upload_video_inner (session_id : String) (w : World) (st0 : Store) :
    Except PyExc SubmitResponse × Store × List (String × PyVal) :=
  -- A. upload to storage, get public URL
  match w.videoUpload with
  | some m => (.error (.exc m), st0, [])
  | Option.none =>
    let public_url := w.publicUrl
    -- B. status -> "processing"
    match w.updProcessing with
    | some m => (.error (.exc m), st0, [])
    | Option.none =>
      let st1 := updateEq st0 (processingFields public_url) "case_id" session_id
      -- C. fetch verification code
      match w.select with
      | some m => (.error (.exc m), st1, [])
      | Option.none =>
        match selectEq st1 "case_id" session_id with
        | [] => (.error (.httpExc 404 "Session not found"), st1, [])
        | row :: _ =>
          let expected_code := dictGet row "verification_code" (.str "0000")
          -- D. AI analysis and safe JSON parse
          let ai_data : PyVal := parsedVerdict w
          -- E. save verdict, status -> "completed"
          match w.updCompleted with
          | some m => (.error (.exc m), st1, [(public_url, expected_code)])
          | Option.none =>
            let st2 := updateEq st1 (completedFields ai_data) "case_id" session_id
            -- F. report generation (never raises past this point)
            let rep := report_phase session_id ai_data w st2
            -- G. final response
            (.ok ⟨"success", public_url, ai_data, rep.1⟩, rep.2,
             [(public_url, expected_code)])

/-- Full result of one `upload_video` request. -/
structure SubmitOutcome where
  /-- HTTP-level result: a 200 body, or `(code, detail)` of an `HTTPException`. -/
  result : Except (Nat × String) SubmitResponse
  /-- The store after the request. -/
  store : Store
  /-- Arguments of every `analyze_video` call made. -/
  analyzeCalls : List (String × PyVal)

/-- `upload_video` (main.py lines 114-211): the `try` body wrapped in the
blanket `except Exception` handler, which re-raises anything - including the
inner `HTTPException(404)` - as `HTTPException(500, str(e))`. -/
def upload_video (session_id : String) (w : World) (st0 : Store) : SubmitOutcome :=
  match upload_video_inner session_id w st0 with
  | (.ok resp, st, calls) => ⟨.ok resp, st, calls⟩
  | (.error e, st, calls) => ⟨.error (500, pyExcStr e), st, calls⟩

/-! ## Association-list store lemmas -/

lemma dictLookup_dictSet_self (r : Row) (k : String) (v : PyVal) :
    dictLookup (dictSet r k v) k = some v := by
  induction r with
  | nil => simp [dictSet, dictLookup]
  | cons p rest ih =>
      by_cases h : p.1 == k
      · simp [dictSet, h, dictLookup]
      · simp [dictSet, h, dictLookup, ih]

lemma dictLookup_dictSet_other (r : Row) (k k' : String) (v : PyVal) (h : k' ≠ k) :
    dictLookup (dictSet r k' v) k = dictLookup r k := by
  induction r with
  | nil => simp [dictSet, dictLookup, h]
  | cons p rest ih =>
      by_cases hp : p.1 == k'
      · have hpk : (p.1 == k) = false := by
          simp only [beq_iff_eq] at hp ⊢
          simp [hp, h]
        simp [dictSet, hp, dictLookup, hpk, h]
      · simp [dictSet, hp, dictLookup, ih]

lemma dictLookup_setFields_not_mem (fields : List (String × PyVal)) :
    ∀ (r : Row) (k : String), (∀ kv ∈ fields, kv.1 ≠ k) →
      dictLookup (setFields r fields) k = dictLookup r k := by
  induction fields with
  | nil => intro r k _; rfl
  | cons kv rest ih =>
      intro r k h
      have h1 : kv.1 ≠ k := h kv (List.mem_cons_self kv rest)
      have h2 : ∀ p ∈ rest, p.1 ≠ k := fun p hp => h p (List.mem_cons_of_mem kv hp)
      simp only [setFields]
      rw [ih (dictSet r kv.1 kv.2) k h2, dictLookup_dictSet_other r k kv.1 kv.2 h1]

lemma rowMatches_setFields (fields : List (String × PyVal)) (r : Row) (k v : String)
    (h : ∀ kv ∈ fields, kv.1 ≠ k) :
    rowMatches (setFields r fields) k v = rowMatches r k v := by
  simp only [rowMatches, dictLookup_setFields_not_mem fields r k h]

lemma selectEq_updateEq (st : Store) (fields : List (String × PyVal)) (k v : String)
    (h : ∀ kv ∈ fields, kv.1 ≠ k) :
    selectEq (updateEq st fields k v) k v
      = (selectEq st k v).map (fun r => setFields r fields) := by
  induction st with
  | nil => rfl
  | cons r rest ih =>
      by_cases hm : rowMatches r k v
      · simp [updateEq, selectEq, hm, rowMatches_setFields fields r k v h, ih]
      · simp [updateEq, selectEq, hm, rowMatches_setFields fields r k v h, ih]

lemma selectEq_append (st st' : Store) (k v : String) :
    selectEq (st ++ st') k v = selectEq st k v ++ selectEq st' k v := by
  induction st with
  | nil => rfl
  | cons r rest ih =>
      by_cases hm : rowMatches r k v
      · simp [selectEq, hm, ih]
      · simp [selectEq, hm, ih]

/-! ## Decimal-string lemmas (`pyStr`, `randint`) -/

lemma randint_lower (seed : Nat) : 1000 ≤ randint 1000 9999 seed := by
  simp only [randint]; omega

lemma randint_upper (seed : Nat) : randint 1000 9999 seed ≤ 9999 := by
  have h : seed % (9999 - 1000 + 1) < 9000 := Nat.mod_lt seed (by omega)
  simp only [randint]; omega

lemma natDigitsAux_length4 (fuel n : Nat) (hf : 4 ≤ fuel) (h1 : 1000 ≤ n) (h2 : n ≤ 9999) :
    (natDigitsAux fuel n).length = 4 := by
  obtain ⟨f, rfl⟩ : ∃ f, fuel = f + 4 := ⟨fuel - 4, by omega⟩
  have e1 : ¬ n < 10 := by omega
  have e2 : ¬ n / 10 < 10 := by omega
  have e3 : ¬ n / 10 / 10 < 10 := by omega
  have e4 : n / 10 / 10 / 10 < 10 := by omega
  simp [natDigitsAux, e1, e2, e3, e4]

lemma pyStr_length4 (n : Nat) (h1 : 1000 ≤ n) (h2 : n ≤ 9999) :
    (pyStr n).length = 4 := by
  show (natDigitsAux (n + 1) n).length = 4
  exact natDigitsAux_length4 (n + 1) n (by omega) h1 h2

lemma digitChar_isDigit (d : Nat) (h : d < 10) : (Nat.digitChar d).isDigit = true := by
  interval_cases d <;> rfl

lemma natDigitsAux_all_digit (fuel : Nat) :
    ∀ n, ∀ c ∈ natDigitsAux fuel n, c.isDigit = true := by
  induction fuel with
  | zero => intro n c hc; simp [natDigitsAux] at hc
  | succ f ih =>
      intro n c hc
      by_cases h10 : n < 10
      · simp only [natDigitsAux, if_pos h10, List.mem_singleton] at hc
        subst hc; exact digitChar_isDigit n h10
      · simp only [natDigitsAux, if_neg h10, List.mem_append, List.mem_singleton] at hc
        rcases hc with hc | hc
        · exact ih (n / 10) c hc
        · subst hc; exact digitChar_isDigit (n % 10) (Nat.mod_lt n (by omega))

lemma pyStr_all_digit (n : Nat) : ∀ c ∈ (pyStr n).data, c.isDigit = true := by
  intro c hc
  exact natDigitsAux_all_digit (n + 1) n c hc

/-! ## Geofence mathematics -/

lemma radians_sub (x y : ℝ) : radians (x - y) = radians x - radians y := by
  unfold radians; ring

lemma cos_radians_nonneg (lat : ℝ) (h : |lat| ≤ 90) : 0 ≤ Real.cos (radians lat) := by
  have hpi : 0 < Real.pi := Real.pi_pos
  have habs : |radians lat| ≤ Real.pi / 2 := by
    have habs_eq : |radians lat| = |lat| * (Real.pi / 180) := by
      unfold radians
      rw [abs_div, abs_mul, abs_of_pos hpi]
      norm_num
      ring
    rw [habs_eq]
    have h90 : |lat| * (Real.pi / 180) ≤ 90 * (Real.pi / 180) := by
      apply mul_le_mul_of_nonneg_right h
      positivity
    linarith
  obtain ⟨hl, hu⟩ := abs_le.mp habs
  exact Real.cos_nonneg_of_mem_Icc ⟨by linarith, hu⟩

lemma hav_a_nonneg (c1 c2 u v : ℝ) (h1 : 0 ≤ c1) (h2 : 0 ≤ c2) :
    0 ≤ Real.sin u ^ 2 + c1 * c2 * Real.sin v ^ 2 := by
  have hp : 0 ≤ c1 * c2 * Real.sin v ^ 2 :=
    mul_nonneg (mul_nonneg h1 h2) (sq_nonneg _)
  linarith [sq_nonneg (Real.sin u)]

lemma cos_mul_cos_le_cos_sq_half (x y : ℝ) :
    Real.cos x * Real.cos y ≤ Real.cos ((y - x) / 2) ^ 2 := by
  have hsum : Real.cos (x - y) + Real.cos (x + y) = 2 * (Real.cos x * Real.cos y) := by
    rw [Real.cos_sub, Real.cos_add]; ring
  have hhalf : Real.cos ((y - x) / 2) ^ 2 = 1 / 2 + Real.cos (y - x) / 2 := by
    have h2x : 2 * ((y - x) / 2) = y - x := by ring
    rw [Real.cos_sq, h2x]
  have hflip : Real.cos (y - x) = Real.cos (x - y) := by
    rw [← Real.cos_neg (y - x)]; ring_nf
  have hle : Real.cos (x + y) ≤ 1 := Real.cos_le_one _
  nlinarith

lemma hav_a_le_one (p1 p2 v : ℝ) (h1 : 0 ≤ Real.cos p1) (h2 : 0 ≤ Real.cos p2) :
    Real.sin ((p2 - p1) / 2) ^ 2 + Real.cos p1 * Real.cos p2 * Real.sin v ^ 2 ≤ 1 := by
  have hprod := cos_mul_cos_le_cos_sq_half p1 p2
  have hs : Real.sin v ^ 2 ≤ 1 := Real.sin_sq_le_one v
  have hsv : 0 ≤ Real.sin v ^ 2 := sq_nonneg _
  have hpyth := Real.sin_sq_add_cos_sq ((p2 - p1) / 2)
  nlinarith [mul_nonneg h1 h2]

lemma atan2_sqrt_eq_arcsin (a : ℝ) (h0 : 0 ≤ a) (h1 : a ≤ 1) :
    atan2 (Real.sqrt a) (Real.sqrt (1 - a)) = Real.arcsin (Real.sqrt a) := by
  rcases eq_or_lt_of_le h1 with heq | hlt
  · subst heq
    norm_num [atan2, Real.sqrt_zero, Real.sqrt_one, Real.arcsin_one, Real.pi_pos.ne]
  · have hx : 0 < Real.sqrt (1 - a) := Real.sqrt_pos.mpr (by linarith)
    have hlt1 : Real.sqrt a < 1 := by
      rw [Real.sqrt_lt' one_pos]
      nlinarith
    have hmem : Real.sqrt a ∈ Set.Ioo (-(1 : ℝ)) 1 :=
      ⟨by linarith [Real.sqrt_nonneg a], hlt1⟩
    rw [atan2, if_pos hx, Real.arcsin_eq_arctan hmem, Real.sq_sqrt h0]

/-- On physically meaningful latitudes the source's `atan2` haversine form and
the spec's `arcsin` law-of-haversines form agree. -/
lemma calculate_distance_eq_spec (lat1 lon1 lat2 lon2 : ℝ)
    (h1 : |lat1| ≤ 90) (h2 : |lat2| ≤ 90) :
    calculate_distance lat1 lon1 lat2 lon2 = haversine_spec lat1 lon1 lat2 lon2 := by
  have hc1 := cos_radians_nonneg lat1 h1
  have hc2 := cos_radians_nonneg lat2 h2
  have hsub := radians_sub lat2 lat1
  simp only [calculate_distance, haversine_spec]
  have ha0 : 0 ≤ Real.sin (radians (lat2 - lat1) / 2) ^ 2 +
      Real.cos (radians lat1) * Real.cos (radians lat2) *
        Real.sin (radians (lon2 - lon1) / 2) ^ 2 :=
    hav_a_nonneg _ _ _ _ hc1 hc2
  have ha1 : Real.sin (radians (lat2 - lat1) / 2) ^ 2 +
      Real.cos (radians lat1) * Real.cos (radians lat2) *
        Real.sin (radians (lon2 - lon1) / 2) ^ 2 ≤ 1 := by
    rw [hsub]
    exact hav_a_le_one (radians lat1) (radians lat2) _ hc1 hc2
  rw [atan2_sqrt_eq_arcsin _ ha0 ha1]

lemma calculate_distance_self (x y : ℝ) : calculate_distance x y x y = 0 := by
  simp only [calculate_distance, sub_self]
  have h0 : radians 0 = 0 := by unfold radians; ring
  rw [h0]
  norm_num [Real.sqrt_one, atan2]

lemma calculate_distance_antipodal_lat (lat1 lon1 lat2 lon2 : ℝ)
    (hlat : lat2 - lat1 = 180) (hlon : lon2 - lon1 = 0) :
    calculate_distance lat1 lon1 lat2 lon2 = 6371000 * Real.pi := by
  simp only [calculate_distance]
  rw [hlat, hlon]
  have hr : radians 180 = Real.pi := by unfold radians; ring
  have h0 : radians 0 = 0 := by unfold radians; ring
  rw [hr, h0]
  rw [Real.sin_pi_div_two]
  norm_num [Real.sqrt_one, atan2, Real.pi_pos.ne]
  ring

/-- The geofence branch of `initiate_session` rejects exactly when the computed
distance exceeds `max_distance`. -/
lemma initiate_isDenied_iff (data : LocationCheck) (seed : Nat) (w : InitWorld) (store : Store) :
    ((initiate_session data seed w store).1.isDenied = true) ↔
      calculate_distance data.lat data.long target_lat target_long > (max_distance : ℝ) := by
  by_cases h : calculate_distance data.lat data.long target_lat target_long > (max_distance : ℝ)
  · simp [initiate_session, h, InitResponse.isDenied]
  · simp only [initiate_session, if_neg h]
    cases hw : w.selectErr
    · cases hsel : selectEq store "case_id" data.case_id
      · cases hins : w.insertErr <;> simp [InitResponse.isDenied, h, hw, hsel, hins]
      · cases hupd : w.updateErr <;> simp [InitResponse.isDenied, h, hw, hsel, hupd]
    · simp [InitResponse.isDenied, h, hw]

/-! ## Claim C6 -/

/-- C6: for every coordinate whose distance from the target exceeds the
configured radius, `initiate_session` returns `allowed: false` with a reason
and performs no store read or write: the store is unchanged and the trace of
store operations is empty. -/
theorem C6_geofence_rejection_side_effect_free (data : LocationCheck) (seed : Nat)
    (w : InitWorld) (store : Store)
    (h : calculate_distance data.lat data.long target_lat target_long > (max_distance : ℝ)) :
    initiate_session data seed w store
      = (InitResponse.denied "You are too far from the location!", store, []) := by
  simp only [initiate_session, if_pos h]

/-- A coordinate 180 degrees of latitude away from the target is
`6371000 * π` metres away, beyond the 500 m radius; `initiate_session` there
is rejected without touching the store. -/
theorem C6_geofence_rejection_side_effect_free_witness :
    calculate_distance ((-160.926108 : ℚ) : ℝ) ((72.845470 : ℚ) : ℝ)
        (target_lat : ℝ) (target_long : ℝ) > (max_distance : ℝ)
    ∧ initiate_session ⟨-160.926108, 72.845470, "case-far"⟩ 0 ⟨false, false, false⟩ []
        = (InitResponse.denied "You are too far from the location!", [], []) := by
  have hfar : calculate_distance ((-160.926108 : ℚ) : ℝ) ((72.845470 : ℚ) : ℝ)
      (target_lat : ℝ) (target_long : ℝ) = 6371000 * Real.pi := by
    apply calculate_distance_antipodal_lat
    · norm_num [target_lat]
    · norm_num [target_long]
  have hgt : calculate_distance ((-160.926108 : ℚ) : ℝ) ((72.845470 : ℚ) : ℝ)
      (target_lat : ℝ) (target_long : ℝ) > (max_distance : ℝ) := by
    rw [hfar]
    have h3 := Real.pi_gt_three
    norm_num [max_distance]
    nlinarith
  exact ⟨hgt,
    C6_geofence_rejection_side_effect_free ⟨-160.926108, 72.845470, "case-far"⟩ 0
      ⟨false, false, false⟩ [] hgt⟩

/-! ## Claim C8 -/

/-- C8: the geofence decision of `initiate_session` (not being rejected as too
far) agrees with the spec's reference definition: the law-of-haversines
distance `haversine_spec` to the fixed target with Earth radius 6,371,000 m is
at most the 500 m threshold (for physically meaningful latitudes, where the
two haversine forms coincide); moreover `calculate_distance` of a point to
itself is 0, and initiating at the exact target coordinates is always
allowed. -/
theorem C8_geofence_matches_haversine_reference :
    (∀ (data : LocationCheck) (seed : Nat) (w : InitWorld) (store : Store),
        |(data.lat : ℝ)| ≤ 90 →
        (((initiate_session data seed w store).1.isDenied = false) ↔
          haversine_spec data.lat data.long target_lat target_long ≤ (max_distance : ℝ)))
    ∧ (∀ x y : ℝ, calculate_distance x y x y = 0)
    ∧ (∀ (data : LocationCheck) (seed : Nat) (w : InitWorld) (store : Store),
        data.lat = target_lat → data.long = target_long →
        (initiate_session data seed w store).1.isDenied = false) := by
  have htgt : |((target_lat : ℚ) : ℝ)| ≤ 90 := by
    rw [abs_le]
    norm_num [target_lat]
  refine ⟨?_, calculate_distance_self, ?_⟩
  · intro data seed w store hlat
    have heq := calculate_distance_eq_spec data.lat data.long target_lat target_long hlat htgt
    have hiff := initiate_isDenied_iff data seed w store
    constructor
    · intro hfalse
      have hnot : ¬ ((initiate_session data seed w store).1.isDenied = true) := by
        simp [hfalse]
      rw [hiff] at hnot
      rw [← heq]
      exact not_lt.mp hnot
    · intro hle
      have hnot : ¬ calculate_distance data.lat data.long target_lat target_long
          > (max_distance : ℝ) := by
        rw [heq]
        exact not_lt.mpr hle
      rw [← hiff] at hnot
      exact Bool.not_eq_true _ ▸ hnot
  · intro data seed w store hlat hlong
    have hzero : calculate_distance data.lat data.long target_lat target_long = 0 := by
      rw [hlat, hlong]
      exact calculate_distance_self _ _
    have hnot : ¬ calculate_distance data.lat data.long target_lat target_long
        > (max_distance : ℝ) := by
      rw [hzero]
      norm_num
    rw [← initiate_isDenied_iff data seed w store] at hnot
    exact Bool.not_eq_true _ ▸ hnot

/-- Instantiating C8 at the exact target point: identical coordinates give
distance 0 and the session is allowed. -/
theorem C8_geofence_matches_haversine_reference_witness :
    |((target_lat : ℚ) : ℝ)| ≤ 90
    ∧ (((initiate_session ⟨target_lat, target_long, "case-exact"⟩ 7
          ⟨false, false, false⟩ []).1.isDenied = false) ↔
        haversine_spec (target_lat : ℝ) (target_long : ℝ) (target_lat : ℝ) (target_long : ℝ)
          ≤ (max_distance : ℝ))
    ∧ calculate_distance (target_lat : ℝ) (target_long : ℝ) (target_lat : ℝ) (target_long : ℝ) = 0
    ∧ (initiate_session ⟨target_lat, target_long, "case-exact"⟩ 7
        ⟨false, false, false⟩ []).1.isDenied = false := by
  have htgt : |((target_lat : ℚ) : ℝ)| ≤ 90 := by
    rw [abs_le]
    norm_num [target_lat]
  exact ⟨htgt,
    C8_geofence_matches_haversine_reference.1 ⟨target_lat, target_long, "case-exact"⟩ 7
      ⟨false, false, false⟩ [] htgt,
    C8_geofence_matches_haversine_reference.2.1 _ _,
    C8_geofence_matches_haversine_reference.2.2 ⟨target_lat, target_long, "case-exact"⟩ 7
      ⟨false, false, false⟩ [] rfl rfl⟩

/-! ## Behaviour of the initiate upsert -/

lemma initUpdateFields_no_case_id (data : LocationCheck) (otp : String) :
    ∀ kv ∈ initUpdateFields data otp, kv.1 ≠ "case_id" := by
  intro kv hkv
  simp only [initUpdateFields, List.mem_cons, List.mem_singleton] at hkv
  rcases hkv with rfl | rfl | rfl | rfl | h
  · simp
  · simp
  · simp
  · simp
  · simp at h

lemma initUpdateFields_lookups (r : Row) (data : LocationCheck) (otp : String) :
    dictLookup (setFields r (initUpdateFields data otp)) "status" = some (.str "pending")
    ∧ dictLookup (setFields r (initUpdateFields data otp)) "gps_lat" = some (.rat data.lat)
    ∧ dictLookup (setFields r (initUpdateFields data otp)) "gps_long" = some (.rat data.long)
    ∧ dictLookup (setFields r (initUpdateFields data otp)) "verification_code"
        = some (.str otp) := by
  simp only [initUpdateFields, setFields]
  refine ⟨?_, ?_, ?_, ?_⟩
  · rw [dictLookup_dictSet_other _ _ _ _ (by decide),
      dictLookup_dictSet_self]
  · rw [dictLookup_dictSet_other _ _ _ _ (by decide),
      dictLookup_dictSet_other _ _ _ _ (by decide),
      dictLookup_dictSet_other _ _ _ _ (by decide),
      dictLookup_dictSet_self]
  · rw [dictLookup_dictSet_other _ _ _ _ (by decide),
      dictLookup_dictSet_other _ _ _ _ (by decide),
      dictLookup_dictSet_self]
  · rw [dictLookup_dictSet_self]

lemma initInsertRow_matches (data : LocationCheck) (otp : String) :
    rowMatches (initInsertRow data otp) "case_id" data.case_id = true := by
  simp [initInsertRow, rowMatches, dictLookup]

lemma initInsertRow_lookups (data : LocationCheck) (otp : String) :
    dictLookup (initInsertRow data otp) "status" = some (.str "pending")
    ∧ dictLookup (initInsertRow data otp) "gps_lat" = some (.rat data.lat)
    ∧ dictLookup (initInsertRow data otp) "gps_long" = some (.rat data.long)
    ∧ dictLookup (initInsertRow data otp) "verification_code" = some (.str otp) := by
  refine ⟨?_, ?_, ?_, ?_⟩ <;> simp [initInsertRow, initUpdateFields, dictLookup]

/-! ## Claim C5 -/

/-- C5: re-initiating from an allowed coordinate never creates a second record
for a `case_id`: the number of matching rows is `max 1` of what it was (so a
store with at most one row per case keeps exactly one), and every matching row
after the call carries status "pending", the newly presented coordinates, and
the freshly issued code. -/
theorem C5_initiate_upsert_single_record (data : LocationCheck) (seed : Nat) (w : InitWorld)
    (st : Store)
    (hgeo : ¬ calculate_distance data.lat data.long target_lat target_long > (max_distance : ℝ))
    (hsel : w.selectErr = false) (hupd : w.updateErr = false) (hins : w.insertErr = false) :
    ((selectEq ((initiate_session data seed w st).2.1) "case_id" data.case_id).length
        = max 1 (selectEq st "case_id" data.case_id).length)
    ∧ ((selectEq st "case_id" data.case_id).length ≤ 1 →
        (selectEq ((initiate_session data seed w st).2.1) "case_id" data.case_id).length = 1)
    ∧ ∀ row ∈ selectEq ((initiate_session data seed w st).2.1) "case_id" data.case_id,
        dictLookup row "status" = some (.str "pending")
        ∧ dictLookup row "gps_lat" = some (.rat data.lat)
        ∧ dictLookup row "gps_long" = some (.rat data.long)
        ∧ dictLookup row "verification_code"
            = some (.str (pyStr (randint 1000 9999 seed))) := by
  cases hs : selectEq st "case_id" data.case_id with
  | nil =>
      have hstore : (initiate_session data seed w st).2.1
          = st ++ [initInsertRow data (pyStr (randint 1000 9999 seed))] := by
        simp [initiate_session, if_neg hgeo, hsel, hs, hins]
      rw [hstore, selectEq_append, hs]
      have hone : selectEq [initInsertRow data (pyStr (randint 1000 9999 seed))]
          "case_id" data.case_id = [initInsertRow data (pyStr (randint 1000 9999 seed))] := by
        simp [selectEq, initInsertRow_matches]
      rw [hone]
      refine ⟨rfl, fun _ => rfl, ?_⟩
      intro row hrow
      rw [List.nil_append, List.mem_singleton] at hrow
      subst hrow
      obtain ⟨a, b, c, d⟩ := initInsertRow_lookups data (pyStr (randint 1000 9999 seed))
      exact ⟨a, b, c, d⟩
  | cons r rs =>
      have hstore : (initiate_session data seed w st).2.1
          = updateEq st (initUpdateFields data (pyStr (randint 1000 9999 seed)))
              "case_id" data.case_id := by
        simp [initiate_session, if_neg hgeo, hsel, hs, hupd]
      rw [hstore,
        selectEq_updateEq st _ _ _ (initUpdateFields_no_case_id data _)]
      constructor
      · rw [List.length_map, hs]
        simp [List.length_cons, Nat.max_eq_right (Nat.succ_le_succ (Nat.zero_le _))]
      constructor
      · intro hle
        rw [List.length_map, hs]
        simp only [List.length_cons] at hle ⊢
        omega
      · intro row hrow
        rw [List.mem_map] at hrow
        obtain ⟨r0, _, hr0⟩ := hrow
        subst hr0
        obtain ⟨a, b, c, d⟩ := initUpdateFields_lookups r0 data (pyStr (randint 1000 9999 seed))
        exact ⟨a, b, c, d⟩

/-- Instantiating C5 twice from the empty store at the target point: the
first initiation inserts the single record and a re-initiation keeps exactly
one record, resetting it. -/
theorem C5_initiate_upsert_single_record_witness :
    (¬ calculate_distance ((target_lat : ℚ) : ℝ) ((target_long : ℚ) : ℝ)
        (target_lat : ℝ) (target_long : ℝ) > (max_distance : ℝ))
    ∧ ((selectEq ((initiate_session ⟨target_lat, target_long, "case-upsert"⟩ 3
          ⟨false, false, false⟩
          ((initiate_session ⟨target_lat, target_long, "case-upsert"⟩ 1
            ⟨false, false, false⟩ []).2.1)).2.1) "case_id" "case-upsert").length = 1
    ∧ ∀ row ∈ selectEq ((initiate_session ⟨target_lat, target_long, "case-upsert"⟩ 3
          ⟨false, false, false⟩
          ((initiate_session ⟨target_lat, target_long, "case-upsert"⟩ 1
            ⟨false, false, false⟩ []).2.1)).2.1) "case_id" "case-upsert",
        dictLookup row "verification_code" = some (.str (pyStr (randint 1000 9999 3)))) := by
  have hgeo : ¬ calculate_distance ((target_lat : ℚ) : ℝ) ((target_long : ℚ) : ℝ)
      (target_lat : ℝ) (target_long : ℝ) > (max_distance : ℝ) := by
    rw [calculate_distance_self]
    norm_num
  refine ⟨hgeo, ?_⟩
  have h1 := C5_initiate_upsert_single_record ⟨target_lat, target_long, "case-upsert"⟩ 1
    ⟨false, false, false⟩ [] hgeo rfl rfl rfl
  have h2 := C5_initiate_upsert_single_record ⟨target_lat, target_long, "case-upsert"⟩ 3
    ⟨false, false, false⟩
    ((initiate_session ⟨target_lat, target_long, "case-upsert"⟩ 1
      ⟨false, false, false⟩ []).2.1) hgeo rfl rfl rfl
  have hcount1 := h1.2.1 (by simp [selectEq])
  refine ⟨h2.2.1 (by rw [hcount1]), ?_⟩
  intro row hrow
  exact (h2.2.2 row hrow).2.2.2

/-! ## Claim C7 -/

/-- C7: for every coordinate within the radius, a successful `initiate_session`
returns a verification code that is the decimal string of an integer between
1000 and 9999 inclusive (hence a 4-digit numeric string), and the
`verification_code` written to every matching stored row is exactly the string
returned to the caller. -/
theorem C7_code_four_digits_and_stored_equals_returned (data : LocationCheck) (seed : Nat)
    (w : InitWorld) (st : Store)
    (hgeo : ¬ calculate_distance data.lat data.long target_lat target_long > (max_distance : ℝ))
    (hsel : w.selectErr = false) (hupd : w.updateErr = false) (hins : w.insertErr = false) :
    (initiate_session data seed w st).1
        = InitResponse.ok data.case_id (pyStr (randint 1000 9999 seed))
    ∧ 1000 ≤ randint 1000 9999 seed
    ∧ randint 1000 9999 seed ≤ 9999
    ∧ (pyStr (randint 1000 9999 seed)).length = 4
    ∧ (∀ c ∈ (pyStr (randint 1000 9999 seed)).data, c.isDigit = true)
    ∧ ∀ row ∈ selectEq ((initiate_session data seed w st).2.1) "case_id" data.case_id,
        dictLookup row "verification_code"
          = some (.str (pyStr (randint 1000 9999 seed))) := by
  have hresp : (initiate_session data seed w st).1
      = InitResponse.ok data.case_id (pyStr (randint 1000 9999 seed)) := by
    cases hs : selectEq st "case_id" data.case_id with
    | nil => simp [initiate_session, if_neg hgeo, hsel, hs, hins]
    | cons r rs => simp [initiate_session, if_neg hgeo, hsel, hs, hupd]
  refine ⟨hresp, randint_lower seed, randint_upper seed,
    pyStr_length4 _ (randint_lower seed) (randint_upper seed),
    pyStr_all_digit _, ?_⟩
  intro row hrow
  exact ((C5_initiate_upsert_single_record data seed w st hgeo hsel hupd hins).2.2
    row hrow).2.2.2

/-- Instantiating C7 at the target point with seed 42 over the empty store. -/
theorem C7_code_four_digits_and_stored_equals_returned_witness :
    (¬ calculate_distance ((target_lat : ℚ) : ℝ) ((target_long : ℚ) : ℝ)
        (target_lat : ℝ) (target_long : ℝ) > (max_distance : ℝ))
    ∧ ((initiate_session ⟨target_lat, target_long, "case-code"⟩ 42
          ⟨false, false, false⟩ []).1
        = InitResponse.ok "case-code" (pyStr (randint 1000 9999 42))
    ∧ (pyStr (randint 1000 9999 42)).length = 4
    ∧ ∀ row ∈ selectEq ((initiate_session ⟨target_lat, target_long, "case-code"⟩ 42
          ⟨false, false, false⟩ []).2.1) "case_id" "case-code",
        dictLookup row "verification_code"
          = some (.str (pyStr (randint 1000 9999 42)))) := by
  have hgeo : ¬ calculate_distance ((target_lat : ℚ) : ℝ) ((target_long : ℚ) : ℝ)
      (target_lat : ℝ) (target_long : ℝ) > (max_distance : ℝ) := by
    rw [calculate_distance_self]
    norm_num
  have h := C7_code_four_digits_and_stored_equals_returned
    ⟨target_lat, target_long, "case-code"⟩ 42 ⟨false, false, false⟩ [] hgeo rfl rfl rfl
  exact ⟨hgeo, h.1, h.2.2.2.1, h.2.2.2.2.2⟩

/-! ## Characterisation of the submit pipeline -/

lemma upload_video_err_video (sid : String) (w : World) (st0 : Store) (m : String)
    (hv : w.videoUpload = some m) :
    upload_video sid w st0 = ⟨.error (500, m), st0, []⟩ := by
  simp [upload_video, upload_video_inner, hv, pyExcStr]

lemma upload_video_err_processing (sid : String) (w : World) (st0 : Store) (m : String)
    (hv : w.videoUpload = Option.none) (hp : w.updProcessing = some m) :
    upload_video sid w st0 = ⟨.error (500, m), st0, []⟩ := by
  simp [upload_video, upload_video_inner, hv, hp, pyExcStr]

lemma upload_video_err_select (sid : String) (w : World) (st0 : Store) (m : String)
    (hv : w.videoUpload = Option.none) (hp : w.updProcessing = Option.none)
    (hs : w.select = some m) :
    upload_video sid w st0
      = ⟨.error (500, m),
         updateEq st0 (processingFields w.publicUrl) "case_id" sid, []⟩ := by
  simp [upload_video, upload_video_inner, hv, hp, hs, pyExcStr]

lemma upload_video_not_found (sid : String) (w : World) (st0 : Store)
    (hv : w.videoUpload = Option.none) (hp : w.updProcessing = Option.none)
    (hs : w.select = Option.none)
    (hrow : selectEq (updateEq st0 (processingFields w.publicUrl) "case_id" sid)
      "case_id" sid = []) :
    upload_video sid w st0
      = ⟨.error (500, pyExcStr (.httpExc 404 "Session not found")),
         updateEq st0 (processingFields w.publicUrl) "case_id" sid, []⟩ := by
  simp [upload_video, upload_video_inner, hv, hp, hs, hrow]

lemma upload_video_err_completed (sid : String) (w : World) (st0 : Store) (m : String)
    (hv : w.videoUpload = Option.none) (hp : w.updProcessing = Option.none)
    (hs : w.select = Option.none) (row : Row) (rest : List Row)
    (hrow : selectEq (updateEq st0 (processingFields w.publicUrl) "case_id" sid)
      "case_id" sid = row :: rest)
    (hc : w.updCompleted = some m) :
    upload_video sid w st0
      = ⟨.error (500, m),
         updateEq st0 (processingFields w.publicUrl) "case_id" sid,
         [(w.publicUrl, dictGet row "verification_code" (.str "0000"))]⟩ := by
  simp [upload_video, upload_video_inner, hv, hp, hs, hrow, hc, pyExcStr]

lemma upload_video_ok_characterisation (sid : String) (w : World) (st0 : Store)
    (hv : w.videoUpload = Option.none) (hp : w.updProcessing = Option.none)
    (hs : w.select = Option.none) (hc : w.updCompleted = Option.none)
    (row : Row) (rest : List Row)
    (hrow : selectEq (updateEq st0 (processingFields w.publicUrl) "case_id" sid)
      "case_id" sid = row :: rest) :
    upload_video sid w st0
      = ⟨.ok ⟨"success", w.publicUrl, parsedVerdict w,
           (report_phase sid (parsedVerdict w) w
             (updateEq (updateEq st0 (processingFields w.publicUrl) "case_id" sid)
               (completedFields (parsedVerdict w)) "case_id" sid)).1⟩,
         (report_phase sid (parsedVerdict w) w
           (updateEq (updateEq st0 (processingFields w.publicUrl) "case_id" sid)
             (completedFields (parsedVerdict w)) "case_id" sid)).2,
         [(w.publicUrl, dictGet row "verification_code" (.str "0000"))]⟩ := by
  simp [upload_video, upload_video_inner, hv, hp, hs, hc, hrow]

lemma processingFields_no_case_id (url : String) :
    ∀ kv ∈ processingFields url, kv.1 ≠ "case_id" := by
  intro kv hkv
  simp only [processingFields, List.mem_cons, List.mem_singleton] at hkv
  rcases hkv with rfl | rfl | h
  · simp
  · simp
  · simp at h

lemma completedFields_no_case_id (d : PyVal) :
    ∀ kv ∈ completedFields d, kv.1 ≠ "case_id" := by
  intro kv hkv
  simp only [completedFields, List.mem_cons, List.mem_singleton] at hkv
  rcases hkv with rfl | rfl | h
  · simp
  · simp
  · simp at h

lemma reportUrlField_no_case_id (url : String) :
    ∀ kv ∈ [(("report_url" : String), PyVal.str url)], kv.1 ≠ "case_id" := by
  intro kv hkv
  simp only [List.mem_singleton] at hkv
  subst hkv
  simp

lemma completedFields_lookups (r : Row) (d : PyVal) :
    dictLookup (setFields r (completedFields d)) "status" = some (.str "completed")
    ∧ dictLookup (setFields r (completedFields d)) "ai_result" = some d := by
  simp only [completedFields, setFields]
  constructor
  · rw [dictLookup_dictSet_other _ _ _ _ (by decide), dictLookup_dictSet_self]
  · rw [dictLookup_dictSet_self]

lemma reportUrlField_preserves (r : Row) (url k : String) (hk : k ≠ "report_url") :
    dictLookup (setFields r [("report_url", PyVal.str url)]) k = dictLookup r k := by
  simp only [setFields]
  exact dictLookup_dictSet_other r k "report_url" (PyVal.str url) (fun h => hk h.symm)

/-- The store after `report_phase` has the same matching rows as before, up to
an optional extra "report_url" column that leaves "status" and "ai_result"
(and the match key) untouched. -/
lemma report_phase_rows (sid : String) (d : PyVal) (w : World) (st : Store) :
    selectEq (report_phase sid d w st).2 "case_id" sid = selectEq st "case_id" sid
    ∨ selectEq (report_phase sid d w st).2 "case_id" sid
        = (selectEq st "case_id" sid).map
            (fun r => setFields r [("report_url", PyVal.str w.reportPublicUrl)]) := by
  unfold report_phase
  cases hpdf : w.pdfGen with
  | some m => left; rfl
  | none =>
      cases hup : w.reportUpload with
      | some m => left; rfl
      | none =>
          cases hupd : w.updReport with
          | some m => left; rfl
          | none =>
              cases hrem : w.remove with
              | some m =>
                  right
                  exact selectEq_updateEq st _ _ _ (reportUrlField_no_case_id _)
              | none =>
                  right
                  exact selectEq_updateEq st _ _ _ (reportUrlField_no_case_id _)

lemma processingFields_preserves (r : Row) (url k : String)
    (h1 : k ≠ "video_url") (h2 : k ≠ "status") :
    dictLookup (setFields r (processingFields url)) k = dictLookup r k := by
  apply dictLookup_setFields_not_mem
  intro kv hkv
  simp only [processingFields, List.mem_cons, List.mem_singleton] at hkv
  rcases hkv with rfl | rfl | h
  · exact fun he => h1 he.symm
  · exact fun he => h2 he.symm
  · simp at h

lemma parsedVerdict_none (w : World) (h : parsedVerdict w = PyVal.none) :
    ∃ s, w.analyzeRet = .retStr s ∧ w.parse s = some PyVal.none := by
  cases ha : w.analyzeRet with
  | retStr s =>
      cases hps : w.parse s with
      | some v =>
          simp only [parsedVerdict, ha, hps] at h
          exact ⟨s, rfl, by rw [hps, h]⟩
      | none =>
          simp only [parsedVerdict, ha, hps] at h
          exact absurd h (by simp)
  | retDict d =>
      simp only [parsedVerdict, ha] at h
      exact absurd h (by simp)

lemma parsedVerdict_malformed (w : World)
    (h : (∃ s, w.analyzeRet = .retStr s ∧ w.parse s = Option.none)
        ∨ ∃ d, w.analyzeRet = .retDict d) :
    parsedVerdict w = .dict [("raw", w.analyzeRet.rawPayload)] := by
  rcases h with ⟨s, ha, hps⟩ | ⟨d, ha⟩
  · simp only [parsedVerdict, AIRet.rawPayload, ha, hps]
  · simp only [parsedVerdict, AIRet.rawPayload, ha]

lemma report_phase_url (sid : String) (d : PyVal) (w : World) (st : Store) :
    (report_phase sid d w st).1
      = (if w.pdfGen.isSome || w.reportUpload.isSome then Option.none
         else some w.reportPublicUrl) := by
  unfold report_phase
  cases w.pdfGen <;> cases w.reportUpload <;> cases w.updReport <;> cases w.remove <;> simp

/-- In the completed store (after the verdict update and the report phase),
every row matching the session carries status "completed" and the parsed
verdict as its ai_result. -/
lemma ok_final_rows (sid : String) (w : World) (st1 : Store) :
    ∀ row ∈ selectEq (report_phase sid (parsedVerdict w) w
        (updateEq st1 (completedFields (parsedVerdict w)) "case_id" sid)).2 "case_id" sid,
      dictLookup row "status" = some (.str "completed")
      ∧ dictLookup row "ai_result" = some (parsedVerdict w) := by
  intro row hrow
  rcases report_phase_rows sid (parsedVerdict w) w
      (updateEq st1 (completedFields (parsedVerdict w)) "case_id" sid) with heq | heq
  · rw [heq,
      selectEq_updateEq st1 _ _ _ (completedFields_no_case_id _)] at hrow
    rw [List.mem_map] at hrow
    obtain ⟨r0, _, hr0⟩ := hrow
    subst hr0
    exact completedFields_lookups r0 (parsedVerdict w)
  · rw [heq,
      selectEq_updateEq st1 _ _ _ (completedFields_no_case_id _)] at hrow
    rw [List.mem_map] at hrow
    obtain ⟨r1, hr1, hr0⟩ := hrow
    subst hr0
    rw [List.mem_map] at hr1
    obtain ⟨r0, _, hr0⟩ := hr1
    subst hr0
    obtain ⟨ha, hb⟩ := completedFields_lookups r0 (parsedVerdict w)
    exact ⟨by rw [reportUrlField_preserves _ _ _ (by decide)]; exact ha,
      by rw [reportUrlField_preserves _ _ _ (by decide)]; exact hb⟩

lemma ok_final_rows_nonempty (sid : String) (w : World) (st1 : Store)
    (hne : selectEq st1 "case_id" sid ≠ []) :
    selectEq (report_phase sid (parsedVerdict w) w
      (updateEq st1 (completedFields (parsedVerdict w)) "case_id" sid)).2
        "case_id" sid ≠ [] := by
  rcases report_phase_rows sid (parsedVerdict w) w
      (updateEq st1 (completedFields (parsedVerdict w)) "case_id" sid) with heq | heq
  · rw [heq, selectEq_updateEq st1 _ _ _ (completedFields_no_case_id _)]
    simpa using hne
  · rw [heq, selectEq_updateEq st1 _ _ _ (completedFields_no_case_id _)]
    simpa using hne

/-! ## Claim C1 -/

/-- C1 (amended): for every `upload_video` call that runs to completion, every
stored row of the session has status "completed", and its `ai_result` column
is set; that value is non-null except in the single case where the gateway
returned a string that `json.loads` parses to JSON null (then `ai_result` is
null).  The COMPLETED transition is tied to the analysis step: whenever the
call fails instead, the store is either untouched or only carries the
status -> "processing" update, and nothing after the verdict write (in
particular the report phase) reverts the "completed" status. -/
theorem C1_completion_sets_completed_and_verdict (sid : String) (w : World) (st0 : Store) :
    (∀ resp, (upload_video sid w st0).result = .ok resp →
        selectEq (upload_video sid w st0).store "case_id" sid ≠ []
        ∧ ∀ row ∈ selectEq (upload_video sid w st0).store "case_id" sid,
            dictLookup row "status" = some (.str "completed")
            ∧ ∃ v, dictLookup row "ai_result" = some v
                ∧ (v = PyVal.none →
                    ∃ s, w.analyzeRet = .retStr s ∧ w.parse s = some PyVal.none))
    ∧ (∀ e, (upload_video sid w st0).result = .error e →
        (upload_video sid w st0).store = st0
        ∨ (upload_video sid w st0).store
            = updateEq st0 (processingFields w.publicUrl) "case_id" sid) := by
  cases hv : w.videoUpload with
  | some m =>
      rw [upload_video_err_video sid w st0 m hv]
      exact ⟨fun resp h => absurd h (by simp), fun e _ => Or.inl rfl⟩
  | none =>
  cases hp : w.updProcessing with
  | some m =>
      rw [upload_video_err_processing sid w st0 m hv hp]
      exact ⟨fun resp h => absurd h (by simp), fun e _ => Or.inl rfl⟩
  | none =>
  cases hs : w.select with
  | some m =>
      rw [upload_video_err_select sid w st0 m hv hp hs]
      exact ⟨fun resp h => absurd h (by simp), fun e _ => Or.inr rfl⟩
  | none =>
  cases hrow : selectEq (updateEq st0 (processingFields w.publicUrl) "case_id" sid)
      "case_id" sid with
  | nil =>
      rw [upload_video_not_found sid w st0 hv hp hs hrow]
      exact ⟨fun resp h => absurd h (by simp), fun e _ => Or.inr rfl⟩
  | cons row rest =>
  cases hc : w.updCompleted with
  | some m =>
      rw [upload_video_err_completed sid w st0 m hv hp hs row rest hrow hc]
      exact ⟨fun resp h => absurd h (by simp), fun e _ => Or.inr rfl⟩
  | none =>
      rw [upload_video_ok_characterisation sid w st0 hv hp hs hc row rest hrow]
      constructor
      · intro resp _
        constructor
        · exact ok_final_rows_nonempty sid w _ (by rw [hrow]; simp)
        · intro row' hrow'
          obtain ⟨hstat, hai⟩ := ok_final_rows sid w _ row' hrow'
          exact ⟨hstat, parsedVerdict w, hai, parsedVerdict_none w⟩
      · intro e h
        exact absurd h (by simp)

/-- C1 counterexample: the gateway returns the four-character string "null",
which `json.loads` parses to Python `None`; the submit runs to completion
(HTTP success, status "completed") yet the stored `ai_result` is null,
refuting the claim that `ai_result` is always non-null. -/
theorem C1_counterexample_json_null_verdict :
    upload_video "c1"
        ⟨Option.none, "http://v", Option.none, Option.none, .retStr "null",
         fun s => if s == "null" then some PyVal.none else Option.none,
         Option.none, Option.none, Option.none, "http://r.pdf",
         Option.none, Option.none⟩
        [[("case_id", .str "c1"), ("verification_code", .str "1234"),
          ("status", .str "pending")]]
      = ⟨.ok ⟨"success", "http://v", PyVal.none, some "http://r.pdf"⟩,
         [[("case_id", .str "c1"), ("verification_code", .str "1234"),
           ("status", .str "completed"), ("video_url", .str "http://v"),
           ("ai_result", PyVal.none), ("report_url", .str "http://r.pdf")]],
         [("http://v", .str "1234")]⟩
    ∧ dictLookup [(("case_id" : String), PyVal.str "c1"),
        ("verification_code", PyVal.str "1234"),
        ("status", PyVal.str "completed"), ("video_url", PyVal.str "http://v"),
        ("ai_result", PyVal.none), ("report_url", PyVal.str "http://r.pdf")]
        "ai_result" = some PyVal.none := ⟨rfl, rfl⟩

/-- Instantiating C1 on a completing submit whose gateway output parses to a
JSON object: the stored row is completed and carries that non-null verdict. -/
theorem C1_completion_sets_completed_and_verdict_witness :
    (upload_video "cw1"
        ⟨Option.none, "http://v1", Option.none, Option.none, .retStr "{}",
         fun _ => some (.dict [("verification_status", .str "APPROVED")]),
         Option.none, Option.none, Option.none, "http://r1.pdf",
         Option.none, Option.none⟩
        [[("case_id", .str "cw1"), ("verification_code", .str "4582"),
          ("status", .str "pending")]]).result
      = .ok ⟨"success", "http://v1", .dict [("verification_status", .str "APPROVED")],
          some "http://r1.pdf"⟩
    ∧ (selectEq (upload_video "cw1"
        ⟨Option.none, "http://v1", Option.none, Option.none, .retStr "{}",
         fun _ => some (.dict [("verification_status", .str "APPROVED")]),
         Option.none, Option.none, Option.none, "http://r1.pdf",
         Option.none, Option.none⟩
        [[("case_id", .str "cw1"), ("verification_code", .str "4582"),
          ("status", .str "pending")]]).store "case_id" "cw1" ≠ []
    ∧ ∀ row ∈ selectEq (upload_video "cw1"
        ⟨Option.none, "http://v1", Option.none, Option.none, .retStr "{}",
         fun _ => some (.dict [("verification_status", .str "APPROVED")]),
         Option.none, Option.none, Option.none, "http://r1.pdf",
         Option.none, Option.none⟩
        [[("case_id", .str "cw1"), ("verification_code", .str "4582"),
          ("status", .str "pending")]]).store "case_id" "cw1",
        dictLookup row "status" = some (.str "completed")
        ∧ ∃ v, dictLookup row "ai_result" = some v
            ∧ (v = PyVal.none →
                ∃ s, (AIRet.retStr "{}" : AIRet) = .retStr s
                  ∧ (fun _ : String => some (PyVal.dict
                      [("verification_status", PyVal.str "APPROVED")])) s
                    = some PyVal.none)) :=
  ⟨rfl,
   (C1_completion_sets_completed_and_verdict "cw1"
      ⟨Option.none, "http://v1", Option.none, Option.none, .retStr "{}",
       fun _ => some (.dict [("verification_status", .str "APPROVED")]),
       Option.none, Option.none, Option.none, "http://r1.pdf",
       Option.none, Option.none⟩
      [[("case_id", .str "cw1"), ("verification_code", .str "4582"),
        ("status", .str "pending")]]).1
     ⟨"success", "http://v1", .dict [("verification_status", .str "APPROVED")],
       some "http://r1.pdf"⟩ rfl⟩

/-! ## Claim C2 -/

/-- C2 (amended): when any part of the report phase (PDF generation, PDF
upload, report_url persistence, or cleanup) fails, `upload_video` still
returns HTTP success with status "success", the session rows keep status
"completed", and no report failure propagates.  The response's `report_url` is
null exactly when the failure struck before the public report URL was obtained
(PDF generation or PDF upload); a failure in the later persistence step leaves
the already-assigned URL in the response. -/
theorem C2_report_failure_never_propagates (sid : String) (w : World) (st0 : Store)
    (hv : w.videoUpload = Option.none) (hp : w.updProcessing = Option.none)
    (hs : w.select = Option.none) (hc : w.updCompleted = Option.none)
    (row : Row) (rest : List Row)
    (hrow : selectEq (updateEq st0 (processingFields w.publicUrl) "case_id" sid)
      "case_id" sid = row :: rest)
    (hfail : (w.pdfGen.isSome || w.reportUpload.isSome || w.updReport.isSome
        || w.remove.isSome) = true) :
    ∃ resp, (upload_video sid w st0).result = Except.ok resp
      ∧ resp.status = "success"
      ∧ resp.report_url = (if w.pdfGen.isSome || w.reportUpload.isSome then Option.none
          else some w.reportPublicUrl)
      ∧ selectEq (upload_video sid w st0).store "case_id" sid ≠ []
      ∧ ∀ row' ∈ selectEq (upload_video sid w st0).store "case_id" sid,
          dictLookup row' "status" = some (.str "completed") := by
  rw [upload_video_ok_characterisation sid w st0 hv hp hs hc row rest hrow]
  refine ⟨_, rfl, rfl, ?_, ?_, ?_⟩
  · exact report_phase_url sid _ w _
  · exact ok_final_rows_nonempty sid w _ (by rw [hrow]; simp)
  · intro row' hrow'
    exact (ok_final_rows sid w _ row' hrow').1

/-- C2 counterexample: the report-phase DB write persisting `report_url`
fails, yet the response carries the (non-null) public report URL while the
stored row has no `report_url` column - refuting the claim that a report
failure always yields `report_url: null` in the response. -/
theorem C2_counterexample_persist_failure_nonnull_url :
    upload_video "c2"
        ⟨Option.none, "http://v2", Option.none, Option.none, .retStr "{}",
         fun _ => some (.dict []), Option.none, Option.none, Option.none,
         "http://r2.pdf", some "db down", Option.none⟩
        [[("case_id", .str "c2"), ("verification_code", .str "2222"),
          ("status", .str "pending")]]
      = ⟨.ok ⟨"success", "http://v2", .dict [], some "http://r2.pdf"⟩,
         [[("case_id", .str "c2"), ("verification_code", .str "2222"),
           ("status", .str "completed"), ("video_url", .str "http://v2"),
           ("ai_result", .dict [])]],
         [("http://v2", .str "2222")]⟩
    ∧ (some "http://r2.pdf" : Option String) ≠ Option.none := ⟨rfl, by simp⟩

/-- Instantiating C2 where PDF generation itself fails: HTTP success, status
stays "completed", and the response's report_url is null. -/
theorem C2_report_failure_never_propagates_witness :
    selectEq (updateEq
        [[("case_id", PyVal.str "cw2"), ("verification_code", PyVal.str "9435"),
          ("status", PyVal.str "pending")]]
        (processingFields "http://vw2") "case_id" "cw2") "case_id" "cw2"
      = [[("case_id", PyVal.str "cw2"), ("verification_code", PyVal.str "9435"),
          ("status", PyVal.str "processing"), ("video_url", PyVal.str "http://vw2")]]
    ∧ ∃ resp, (upload_video "cw2"
        ⟨Option.none, "http://vw2", Option.none, Option.none, .retStr "{}",
         fun _ => some (.dict []), Option.none, some "fpdf crash", Option.none,
         "http://rw2.pdf", Option.none, Option.none⟩
        [[("case_id", PyVal.str "cw2"), ("verification_code", PyVal.str "9435"),
          ("status", PyVal.str "pending")]]).result = Except.ok resp
      ∧ resp.status = "success"
      ∧ resp.report_url = (if (some "fpdf crash" : Option String).isSome
            || (Option.none : Option String).isSome then Option.none
          else some "http://rw2.pdf")
      ∧ selectEq (upload_video "cw2"
          ⟨Option.none, "http://vw2", Option.none, Option.none, .retStr "{}",
           fun _ => some (.dict []), Option.none, some "fpdf crash", Option.none,
           "http://rw2.pdf", Option.none, Option.none⟩
          [[("case_id", PyVal.str "cw2"), ("verification_code", PyVal.str "9435"),
            ("status", PyVal.str "pending")]]).store "case_id" "cw2" ≠ []
      ∧ ∀ row' ∈ selectEq (upload_video "cw2"
          ⟨Option.none, "http://vw2", Option.none, Option.none, .retStr "{}",
           fun _ => some (.dict []), Option.none, some "fpdf crash", Option.none,
           "http://rw2.pdf", Option.none, Option.none⟩
          [[("case_id", PyVal.str "cw2"), ("verification_code", PyVal.str "9435"),
            ("status", PyVal.str "pending")]]).store "case_id" "cw2",
          dictLookup row' "status" = some (.str "completed") :=
  ⟨rfl,
   C2_report_failure_never_propagates "cw2"
     ⟨Option.none, "http://vw2", Option.none, Option.none, .retStr "{}",
      fun _ => some (.dict []), Option.none, some "fpdf crash", Option.none,
      "http://rw2.pdf", Option.none, Option.none⟩
     [[("case_id", PyVal.str "cw2"), ("verification_code", PyVal.str "9435"),
       ("status", PyVal.str "pending")]]
     rfl rfl rfl rfl
     [("case_id", PyVal.str "cw2"), ("verification_code", PyVal.str "9435"),
      ("status", PyVal.str "processing"), ("video_url", PyVal.str "http://vw2")]
     [] rfl rfl⟩

/-! ## Claim C3 -/

/-- C3: submitting against a session id that matches no stored session.  The
code raises `HTTPException(404, "Session not found")` internally, but the
blanket `except Exception` handler catches it and re-raises
`HTTPException(500, str(e))`, so the caller receives HTTP 500 with detail
"404: Session not found" instead of HTTP 404.  No session row is created (the
store stays empty). -/
theorem C3_unknown_session_http500_no_record :
    upload_video "ghost"
        ⟨Option.none, "http://v3", Option.none, Option.none, .retStr "{}",
         fun _ => Option.none, Option.none, Option.none, Option.none,
         "http://r3.pdf", Option.none, Option.none⟩ []
      = ⟨.error (500, "404: Session not found"), [], []⟩ := rfl

/-! ## Claim C4 -/

/-- C4: for a submit on a session created (or reset) by the most recent
initiation, the expected code handed to `analyze_video` is exactly the code
the initiation stored - the string of the freshly drawn `randint` - and the
value comes from the store lookup, not from anything in the submit request
(whose only inputs are the session id, the file, and the external world). -/
theorem C4_expected_code_from_most_recent_initiate (data : LocationCheck) (seed : Nat)
    (iw : InitWorld) (st0 : Store) (w : World)
    (hgeo : ¬ calculate_distance data.lat data.long target_lat target_long > (max_distance : ℝ))
    (hsel : iw.selectErr = false) (hupd : iw.updateErr = false) (hins : iw.insertErr = false)
    (hv : w.videoUpload = Option.none) (hp : w.updProcessing = Option.none)
    (hs : w.select = Option.none) :
    (upload_video data.case_id w (initiate_session data seed iw st0).2.1).analyzeCalls
      = [(w.publicUrl, .str (pyStr (randint 1000 9999 seed)))] := by
  obtain ⟨hmax, _, hrows⟩ :=
    C5_initiate_upsert_single_record data seed iw st0 hgeo hsel hupd hins
  set stI := (initiate_session data seed iw st0).2.1 with hstI
  have hne : selectEq stI "case_id" data.case_id ≠ [] := by
    intro hnil
    rw [hnil] at hmax
    have h1 : (1 : ℕ) ≤ 1 ⊔ (selectEq st0 "case_id" data.case_id).length := le_sup_left
    rw [← hmax] at h1
    exact absurd h1 (by norm_num)
  cases hs0 : selectEq stI "case_id" data.case_id with
  | nil => exact absurd hs0 hne
  | cons r0 rs0 =>
      have hrow1 : selectEq (updateEq stI (processingFields w.publicUrl) "case_id" data.case_id)
          "case_id" data.case_id
          = setFields r0 (processingFields w.publicUrl)
            :: rs0.map (fun r => setFields r (processingFields w.publicUrl)) := by
        rw [selectEq_updateEq stI _ _ _ (processingFields_no_case_id _), hs0]
        rfl
      have hcode : dictGet (setFields r0 (processingFields w.publicUrl))
          "verification_code" (.str "0000") = .str (pyStr (randint 1000 9999 seed)) := by
        unfold dictGet
        rw [processingFields_preserves r0 w.publicUrl "verification_code"
          (by decide) (by decide)]
        rw [(hrows r0 (by rw [hs0]; exact List.mem_cons_self r0 rs0)).2.2.2]
        rfl
      cases hc : w.updCompleted with
      | some m =>
          rw [upload_video_err_completed data.case_id w stI m hv hp hs _ _ hrow1 hc]
          rw [hcode]
      | none =>
          rw [upload_video_ok_characterisation data.case_id w stI hv hp hs hc _ _ hrow1]
          rw [hcode]

/-- Instantiating C4: initiate at the target with seed 5 over the empty store,
then submit; the analyze call receives the code issued by that initiation. -/
theorem C4_expected_code_from_most_recent_initiate_witness :
    (¬ calculate_distance ((target_lat : ℚ) : ℝ) ((target_long : ℚ) : ℝ)
        (target_lat : ℝ) (target_long : ℝ) > (max_distance : ℝ))
    ∧ (upload_video "case-c4"
        ⟨Option.none, "http://v4", Option.none, Option.none, .retStr "{}",
         fun _ => some (.dict []), Option.none, Option.none, Option.none,
         "http://r4.pdf", Option.none, Option.none⟩
        ((initiate_session ⟨target_lat, target_long, "case-c4"⟩ 5
          ⟨false, false, false⟩ []).2.1)).analyzeCalls
      = [("http://v4", .str (pyStr (randint 1000 9999 5)))] := by
  have hgeo : ¬ calculate_distance ((target_lat : ℚ) : ℝ) ((target_long : ℚ) : ℝ)
      (target_lat : ℝ) (target_long : ℝ) > (max_distance : ℝ) := by
    rw [calculate_distance_self]
    norm_num
  exact ⟨hgeo,
    C4_expected_code_from_most_recent_initiate ⟨target_lat, target_long, "case-c4"⟩ 5
      ⟨false, false, false⟩ []
      ⟨Option.none, "http://v4", Option.none, Option.none, .retStr "{}",
       fun _ => some (.dict []), Option.none, Option.none, Option.none,
       "http://r4.pdf", Option.none, Option.none⟩
      hgeo rfl rfl rfl rfl rfl rfl⟩

/-! ## Claim C9 -/

/-- C9: when the gateway output is not parseable as the expected schema
(either a string `json.loads` rejects, or the gateway's own error dict, on
which `json.loads` raises `TypeError`), the submit does not fail: the raw
payload is stored under the "raw" escape field of the verdict written to the
session, and the request completes with HTTP success carrying that same
degraded verdict. -/
theorem C9_malformed_ai_output_stored_raw (sid : String) (w : World) (st0 : Store)
    (hv : w.videoUpload = Option.none) (hp : w.updProcessing = Option.none)
    (hs : w.select = Option.none) (hc : w.updCompleted = Option.none)
    (row : Row) (rest : List Row)
    (hrow : selectEq (updateEq st0 (processingFields w.publicUrl) "case_id" sid)
      "case_id" sid = row :: rest)
    (hmal : (∃ s, w.analyzeRet = .retStr s ∧ w.parse s = Option.none)
        ∨ ∃ d, w.analyzeRet = .retDict d) :
    ∃ resp, (upload_video sid w st0).result = Except.ok resp
      ∧ resp.ai_verdict = .dict [("raw", w.analyzeRet.rawPayload)]
      ∧ selectEq (upload_video sid w st0).store "case_id" sid ≠ []
      ∧ ∀ row' ∈ selectEq (upload_video sid w st0).store "case_id" sid,
          dictLookup row' "ai_result" = some (.dict [("raw", w.analyzeRet.rawPayload)]) := by
  have hpv := parsedVerdict_malformed w hmal
  rw [upload_video_ok_characterisation sid w st0 hv hp hs hc row rest hrow]
  refine ⟨_, rfl, hpv, ?_, ?_⟩
  · exact ok_final_rows_nonempty sid w _ (by rw [hrow]; simp)
  · intro row' hrow'
    rw [← hpv]
    exact (ok_final_rows sid w _ row' hrow').2

/-- Instantiating C9 with a gateway string that is not JSON: the stored and
returned verdict is the raw-escape dict. -/
theorem C9_malformed_ai_output_stored_raw_witness :
    selectEq (updateEq
        [[("case_id", PyVal.str "cw9"), ("verification_code", PyVal.str "7777"),
          ("status", PyVal.str "pending")]]
        (processingFields "http://vw9") "case_id" "cw9") "case_id" "cw9"
      = [[("case_id", PyVal.str "cw9"), ("verification_code", PyVal.str "7777"),
          ("status", PyVal.str "processing"), ("video_url", PyVal.str "http://vw9")]]
    ∧ ∃ resp, (upload_video "cw9"
        ⟨Option.none, "http://vw9", Option.none, Option.none,
         .retStr "Sorry, I cannot analyse this video.",
         fun _ => Option.none, Option.none, Option.none, Option.none,
         "http://rw9.pdf", Option.none, Option.none⟩
        [[("case_id", PyVal.str "cw9"), ("verification_code", PyVal.str "7777"),
          ("status", PyVal.str "pending")]]).result = Except.ok resp
      ∧ resp.ai_verdict = .dict [("raw",
          (AIRet.retStr "Sorry, I cannot analyse this video.").rawPayload)]
      ∧ selectEq (upload_video "cw9"
          ⟨Option.none, "http://vw9", Option.none, Option.none,
           .retStr "Sorry, I cannot analyse this video.",
           fun _ => Option.none, Option.none, Option.none, Option.none,
           "http://rw9.pdf", Option.none, Option.none⟩
          [[("case_id", PyVal.str "cw9"), ("verification_code", PyVal.str "7777"),
            ("status", PyVal.str "pending")]]).store "case_id" "cw9" ≠ []
      ∧ ∀ row' ∈ selectEq (upload_video "cw9"
          ⟨Option.none, "http://vw9", Option.none, Option.none,
           .retStr "Sorry, I cannot analyse this video.",
           fun _ => Option.none, Option.none, Option.none, Option.none,
           "http://rw9.pdf", Option.none, Option.none⟩
          [[("case_id", PyVal.str "cw9"), ("verification_code", PyVal.str "7777"),
            ("status", PyVal.str "pending")]]).store "case_id" "cw9",
          dictLookup row' "ai_result" = some (.dict [("raw",
            (AIRet.retStr "Sorry, I cannot analyse this video.").rawPayload)]) :=
  ⟨rfl,
   C9_malformed_ai_output_stored_raw "cw9"
     ⟨Option.none, "http://vw9", Option.none, Option.none,
      .retStr "Sorry, I cannot analyse this video.",
      fun _ => Option.none, Option.none, Option.none, Option.none,
      "http://rw9.pdf", Option.none, Option.none⟩
     [[("case_id", PyVal.str "cw9"), ("verification_code", PyVal.str "7777"),
       ("status", PyVal.str "pending")]]
     rfl rfl rfl rfl
     [("case_id", PyVal.str "cw9"), ("verification_code", PyVal.str "7777"),
      ("status", PyVal.str "processing"), ("video_url", PyVal.str "http://vw9")]
     [] rfl
     (Or.inl ⟨"Sorry, I cannot analyse this video.", rfl, rfl⟩)⟩

/-! ## Claim C10 -/

/-- C10 (amended): when the session row found at submit time has no
`verification_code` key at all, submit proceeds with the constant "0000" as
the expected code and completes normally; but when the key is present and
bound to null, Python's `dict.get` returns that null itself - the null, not
"0000", is what is passed to the analysis step. -/
theorem C10_missing_code_defaults_to_0000 (sid : String) (w : World) (st0 : Store)
    (hv : w.videoUpload = Option.none) (hp : w.updProcessing = Option.none)
    (hs : w.select = Option.none) (hc : w.updCompleted = Option.none)
    (row : Row) (rest : List Row)
    (hrow : selectEq (updateEq st0 (processingFields w.publicUrl) "case_id" sid)
      "case_id" sid = row :: rest) :
    ((dictLookup row "verification_code" = Option.none →
        (upload_video sid w st0).analyzeCalls = [(w.publicUrl, .str "0000")])
    ∧ (∀ v, dictLookup row "verification_code" = some v →
        (upload_video sid w st0).analyzeCalls = [(w.publicUrl, v)]))
    ∧ ∃ resp, (upload_video sid w st0).result = Except.ok resp := by
  rw [upload_video_ok_characterisation sid w st0 hv hp hs hc row rest hrow]
  refine ⟨⟨?_, ?_⟩, _, rfl⟩
  · intro hnone
    simp [dictGet, hnone]
  · intro v hval
    simp [dictGet, hval]

/-- C10 counterexample: a session row whose `verification_code` key is
present but bound to null; `dict.get` returns the null, so the analysis step
receives null rather than the claimed "0000". -/
theorem C10_counterexample_null_code_passed_through :
    (upload_video "c10"
        ⟨Option.none, "http://v10", Option.none, Option.none, .retStr "{}",
         fun _ => Option.none, Option.none, Option.none, Option.none,
         "http://r10.pdf", Option.none, Option.none⟩
        [[("case_id", .str "c10"), ("verification_code", PyVal.none),
          ("status", .str "pending")]]).analyzeCalls
      = [("http://v10", PyVal.none)]
    ∧ PyVal.none ≠ PyVal.str "0000" := ⟨rfl, by simp⟩

/-- Instantiating C10 on a row that genuinely lacks the `verification_code`
key: the expected code passed to analysis is "0000" and the call completes. -/
theorem C10_missing_code_defaults_to_0000_witness :
    selectEq (updateEq [[("case_id", PyVal.str "cw10"), ("status", PyVal.str "pending")]]
        (processingFields "http://vw10") "case_id" "cw10") "case_id" "cw10"
      = [[("case_id", PyVal.str "cw10"), ("status", PyVal.str "processing"),
          ("video_url", PyVal.str "http://vw10")]]
    ∧ dictLookup [(("case_id" : String), PyVal.str "cw10"),
        ("status", PyVal.str "processing"), ("video_url", PyVal.str "http://vw10")]
        "verification_code" = Option.none
    ∧ (upload_video "cw10"
        ⟨Option.none, "http://vw10", Option.none, Option.none, .retStr "{}",
         fun _ => some (.dict []), Option.none, Option.none, Option.none,
         "http://rw10.pdf", Option.none, Option.none⟩
        [[("case_id", PyVal.str "cw10"), ("status", PyVal.str "pending")]]).analyzeCalls
      = [("http://vw10", .str "0000")] :=
  ⟨rfl, rfl,
   (C10_missing_code_defaults_to_0000 "cw10"
      ⟨Option.none, "http://vw10", Option.none, Option.none, .retStr "{}",
       fun _ => some (.dict []), Option.none, Option.none, Option.none,
       "http://rw10.pdf", Option.none, Option.none⟩
      [[("case_id", PyVal.str "cw10"), ("status", PyVal.str "pending")]]
      rfl rfl rfl rfl
      [("case_id", PyVal.str "cw10"), ("status", PyVal.str "processing"),
       ("video_url", PyVal.str "http://vw10")]
      [] rfl).1.1 rfl⟩
